import Mathlib

/-!
Verification of the status-wrapper response layer (`src/lib/src/response/status.rs`)
of the rocket repository: the wrappers `Created`, `Accepted`, `NoContent`,
`Reset` and `Custom`, their `Responder` implementations, and the
capability-conditional (`Hash`-specialized) dispatch for `Created`.

The response `Builder` (`Response::build`, `build_from`, `merge`, `status`,
`header`, `ok`) and the `Responder` trait live outside the provided sources,
so they are modelled from the specification (spec sections 4.1 and 4.2); the
wrapper `respond` implementations are translated directly from `status.rs`.
-/

set_option autoImplicit false

namespace Rocket

/-- An HTTP status: numeric code plus canonical reason phrase.  Mirrors the
opaque `http::Status` value space used by `status.rs`. -/
structure Status where
  code : Nat
  reason : String
deriving DecidableEq, Repr

/-- `Status::Created` (201). -/
def Status.Created : Status := ⟨201, "Created"⟩

/-- `Status::Accepted` (202). -/
def Status.Accepted : Status := ⟨202, "Accepted"⟩

/-- `Status::NoContent` (204). -/
def Status.NoContent : Status := ⟨204, "No Content"⟩

/-- `Status::ResetContent` (205). -/
def Status.ResetContent : Status := ⟨205, "Reset Content"⟩

/-- `Status::InternalServerError` (500): the failure an invalid builder
state would report from `ok()`. -/
def Status.InternalServerError : Status := ⟨500, "Internal Server Error"⟩

/-- An entity tag as used by the `ETag` header: a weak/strong marker plus the
tag text.  `hyper::header::EntityTag`. -/
structure EntityTag where
  weak : Bool
  tag : String
deriving DecidableEq, Repr

/-- `EntityTag::strong(tag)`: a strong entity tag with the given text. -/
def EntityTag.strong (t : String) : EntityTag := ⟨false, t⟩

/-- A header value: plain text (as used by `Location`) or an entity tag (as
used by `ETag`). -/
inductive HVal where
  | text (s : String)
  | etag (t : EntityTag)
deriving DecidableEq, Repr

/-- A header: name/value pair. -/
structure Header where
  name : String
  value : HVal
deriving DecidableEq, Repr

/-- `header::Location(url)`. -/
def Header.location (url : String) : Header := ⟨"Location", HVal.text url⟩

/-- `header::ETag(tag)`. -/
def Header.entityTag (t : EntityTag) : Header := ⟨"ETag", HVal.etag t⟩

/-- An immutable response: status, ordered headers, optional body.  Bodies
are opaque to this layer and modelled as strings. -/
structure Response where
  status : Status
  headers : List Header
  body : Option String
deriving DecidableEq, Repr

/-- Modelled from the spec: the builder's add/overwrite-by-name header
policy (spec 4.1, `header(h)` "adds/overwrites a header by name"): the first
header with the same name is replaced in place, otherwise the header is
appended, preserving insertion order. -/
def addHeader : List Header → Header → List Header
  | [], h => [h]
  | h0 :: t, h => if h0.name = h.name then h :: t else h0 :: addHeader t h

/-- First header with the given name, if any. -/
def findHeader : List Header → String → Option Header
  | [], _ => none
  | h :: t, n => if h.name = n then some h else findHeader t n

/-- Modelled from the spec: the transient mutable `Response` builder
(spec 4.1), missing from the provided sources.  Accumulates a status, an
ordered header list and an optional body. -/
structure Builder where
  bstatus : Option Status
  bheaders : List Header
  bbody : Option String
deriving DecidableEq, Repr

/-- Modelled from the spec: `Response::build()` — a new empty builder (no
status, no headers, no body). -/
def Builder.build : Builder := ⟨none, [], none⟩

/-- Modelled from the spec: `Response::build_from(response)` — a builder
pre-populated from an existing response's status, headers and body. -/
def Builder.buildFrom (r : Response) : Builder := ⟨some r.status, r.headers, r.body⟩

/-- Modelled from the spec: `merge(other_response)` — copies all headers and
the body from the other response into the builder, but not its status;
header collisions are resolved last-write-wins by name. -/
def Builder.merge (b : Builder) (r : Response) : Builder :=
  ⟨b.bstatus, r.headers.foldl addHeader b.bheaders, r.body⟩

/-- Modelled from the spec: `status(s)` — sets/overwrites the status field. -/
def Builder.status (b : Builder) (s : Status) : Builder :=
  ⟨some s, b.bheaders, b.bbody⟩

/-- Modelled from the spec: `header(h)` — adds/overwrites a header by name. -/
def Builder.header (b : Builder) (h : Header) : Builder :=
  ⟨b.bstatus, addHeader b.bheaders h, b.bbody⟩

/-- Modelled from the spec: `ok()` — finalizes the builder into an immutable
response, failing with a status when the builder is in an invalid state
(here: no status was ever set). -/
def Builder.ok (b : Builder) : Except Status Response :=
  match b.bstatus with
  | some s => Except.ok ⟨s, b.bheaders, b.bbody⟩
  | none => Except.error Status.InternalServerError

/-- Results of `respond` calls are comparable, so that witnesses can be
checked by evaluation. -/
instance {ε α : Type} [DecidableEq ε] [DecidableEq α] : DecidableEq (Except ε α) :=
  fun a b =>
    match a, b with
    | Except.ok x, Except.ok y =>
      if h : x = y then isTrue (congrArg Except.ok h)
      else isFalse (fun hc => h (Except.ok.inj hc))
    | Except.error x, Except.error y =>
      if h : x = y then isTrue (congrArg Except.error h)
      else isFalse (fun hc => h (Except.error.inj hc))
    | Except.ok _, Except.error _ => isFalse (fun hc => Except.noConfusion hc)
    | Except.error _, Except.ok _ => isFalse (fun hc => Except.noConfusion hc)

/-- Modelled from the spec: the `Responder` capability (spec 4.2) — a value
that, when consumed, produces a response or fails with a status. -/
class Responder (R : Type) where
  respond : R → Except Status Response

/-- The secondary content-hashing capability (`std::hash::Hash` together
with `DefaultHasher`): an opaque stable digest of the value.  `hash64`
stands for running the value's `Hash` implementation through
`DefaultHasher` and taking `finish()`, a 64-bit value (reduced mod 2^64
where it is rendered). -/
class ContentHash (R : Type) where
  hash64 : R → Nat

/-- `status::Created(location, responder)` — `pub struct Created<R>(pub String, pub Option<R>)`. -/
structure Created (R : Type) where
  location : String
  inner : Option R

/-- `status::Accepted(responder)` — `pub struct Accepted<R>(pub Option<R>)`. -/
structure Accepted (R : Type) where
  inner : Option R

/-- `status::NoContent` — unit struct. -/
structure NoContent where

/-- `status::Reset` — unit struct. -/
structure Reset where

/-- `status::Custom(status, responder)` — `pub struct Custom<R>(pub Status, pub R)`. -/
structure Custom (R : Type) where
  status : Status
  inner : R

/-- Translation of the `default fn respond` of `impl Responder for Created<R>`
(status.rs lines 41-48): build, merge the optional nested response
(propagating its failure), then set status 201 and the `Location` header. -/
def Created.respondDefault {R : Type} [Responder R] (c : Created R) :
    Except Status Response :=
  match c.inner with
  | none =>
    ((Builder.build.status Status.Created).header (Header.location c.location)).ok
  | some r =>
    match Responder.respond r with
    | Except.error e => Except.error e
    | Except.ok resp =>
      (((Builder.build.merge resp).status Status.Created).header
        (Header.location c.location)).ok

/-- Translation of the specialized `respond` of
`impl Responder for Created<R>` with `R: Responder + Hash` (status.rs lines
55-69): hash the nested value before consuming it, merge its response
(propagating failure), add the strong `ETag` of the digest rendered in
decimal, then set status 201 and the `Location` header. -/
def Created.respondHash {R : Type} [Responder R] [ContentHash R] (c : Created R) :
    Except Status Response :=
  match c.inner with
  | none =>
    ((Builder.build.status Status.Created).header (Header.location c.location)).ok
  | some r =>
    let hash := Nat.repr (ContentHash.hash64 r % 2 ^ 64)
    match Responder.respond r with
    | Except.error e => Except.error e
    | Except.ok resp =>
      ((((Builder.build.merge resp).header
          (Header.entityTag (EntityTag.strong hash))).status Status.Created).header
        (Header.location c.location)).ok

/-- Translation of `impl Responder for Accepted<R>` (status.rs lines 97-106):
build, merge the optional nested response (propagating its failure), then
set status 202. -/
def Accepted.respond {R : Type} [Responder R] (a : Accepted R) :
    Except Status Response :=
  match a.inner with
  | none => (Builder.build.status Status.Accepted).ok
  | some r =>
    match Responder.respond r with
    | Except.error e => Except.error e
    | Except.ok resp => ((Builder.build.merge resp).status Status.Accepted).ok

/-- Translation of `impl Responder for NoContent` (status.rs lines 122-126). -/
def NoContent.respond (_self : NoContent) : Except Status Response :=
  (Builder.build.status Status.NoContent).ok

/-- Translation of `impl Responder for Reset` (status.rs lines 142-146). -/
def Reset.respond (_self : Reset) : Except Status Response :=
  (Builder.build.status Status.ResetContent).ok

/-- Translation of `impl Responder for Custom<R>` (status.rs lines 162-168):
build from the nested response (propagating its failure) and overwrite the
status with the caller-supplied one. -/
def Custom.respond {R : Type} [Responder R] (c : Custom R) :
    Except Status Response :=
  match Responder.respond c.inner with
  | Except.error e => Except.error e
  | Except.ok resp => ((Builder.buildFrom resp).status c.status).ok

/-- The base (`default fn`) `Responder` implementation for `Created<R>`;
lower priority models Rust's `default fn` being overridable. -/
instance (priority := 50) instResponderCreatedDefault {R : Type} [Responder R] :
    Responder (Created R) :=
  ⟨Created.respondDefault⟩

/-- The specialized `Responder` implementation for `Created<R>` when `R` also
implements `Hash`; higher priority models specialization preferring the
more specific impl. -/
instance (priority := 100) instResponderCreatedHash {R : Type} [Responder R]
    [ContentHash R] : Responder (Created R) :=
  ⟨Created.respondHash⟩

instance {R : Type} [Responder R] : Responder (Accepted R) := ⟨Accepted.respond⟩

instance : Responder NoContent := ⟨NoContent.respond⟩

instance : Responder Reset := ⟨Reset.respond⟩

instance {R : Type} [Responder R] : Responder (Custom R) := ⟨Custom.respond⟩

/-- A universal test responder for concrete witnesses: either succeeds with a
fixed response or fails with a fixed status. -/
inductive TR where
  | succeed (r : Response)
  | failWith (s : Status)

instance : Responder TR :=
  ⟨fun t => match t with
    | TR.succeed r => Except.ok r
    | TR.failWith s => Except.error s⟩

/-- A hash-capable test responder for concrete witnesses: carries its digest
and its respond outcome. -/
structure HTR where
  content : Nat
  out : Except Status Response

instance : Responder HTR := ⟨fun t => t.out⟩

instance : ContentHash HTR := ⟨fun t => t.content⟩

/-- Looking up the name an added header carries finds exactly that header:
`addHeader` either replaced the first header of that name in place or
appended at the end past all other names. -/
theorem findHeader_addHeader_self (hs : List Header) (h : Header) (n : String)
    (hn : h.name = n) : findHeader (addHeader hs h) n = some h := by
  induction hs with
  | nil => simp [addHeader, findHeader, hn]
  | cons h0 t ih =>
    simp only [addHeader]
    by_cases h0n : h0.name = h.name
    · simp [findHeader, h0n, hn]
    · have h0n' : ¬h0.name = n := fun hc => h0n (hc.trans hn.symm)
      simp [findHeader, h0n, h0n', ih]

/-- Adding a header of a different name does not change what a lookup finds. -/
theorem findHeader_addHeader_ne (hs : List Header) (h : Header) (n : String)
    (hn : ¬h.name = n) : findHeader (addHeader hs h) n = findHeader hs n := by
  induction hs with
  | nil => simp [addHeader, findHeader, hn]
  | cons h0 t ih =>
    simp only [addHeader]
    by_cases h0n : h0.name = h.name
    · have h0n' : ¬h0.name = n := fun hc => hn (h0n.symm.trans hc)
      simp [findHeader, hn, h0n', h0n]
    · by_cases h0m : h0.name = n
      · have hnn : ¬n = h.name := fun hc => hn hc.symm
        simp [findHeader, h0n, h0m, hnn]
      · simp [findHeader, h0n, h0m, ih]

/-- Folding `addHeader` over headers that do not contain a name leaves a
lookup of that name unanswered when the accumulator does not contain it
either. -/
theorem findHeader_foldl_none (hs : List Header) (n : String) :
    ∀ acc : List Header, findHeader acc n = none → findHeader hs n = none →
      findHeader (hs.foldl addHeader acc) n = none := by
  induction hs with
  | nil =>
    intro acc h1 _
    simpa using h1
  | cons h0 t ih =>
    intro acc h1 h2
    have hne : ¬h0.name = n := by
      intro hc
      simp [findHeader, hc] at h2
    have h2' : findHeader t n = none := by
      simpa [findHeader, hne] using h2
    simpa using ih (addHeader acc h0)
      ((findHeader_addHeader_ne acc h0 n hne).trans h1) h2'

/-- Concrete values for witnesses. -/
def sampleHeaders : List Header := [⟨"X-Test", HVal.text "y"⟩]

/-- A concrete nested response used by witnesses: its own status (418) and
headers differ from anything the wrappers set. -/
def sampleResp : Response := ⟨⟨418, "I am a teapot"⟩, sampleHeaders, some "nested body"⟩

/-- A succeeding test responder. -/
def tOk : TR := TR.succeed sampleResp

/-- A failing test responder. -/
def tFail : TR := TR.failWith ⟨503, "Service Unavailable"⟩

/-- A succeeding hash-capable test responder with digest input 7. -/
def hOk : HTR := ⟨7, Except.ok sampleResp⟩

/-- A failing hash-capable test responder. -/
def hFail : HTR := ⟨7, Except.error ⟨503, "Service Unavailable"⟩⟩

/-- Expected result of `Created.respondDefault ⟨"loc", some tOk⟩`. -/
def respCD : Response :=
  ⟨Status.Created, [⟨"X-Test", HVal.text "y"⟩, Header.location "loc"], some "nested body"⟩

/-- Expected result of `Created.respondHash ⟨"loc", some hOk⟩`. -/
def respCH : Response :=
  ⟨Status.Created,
    [⟨"X-Test", HVal.text "y"⟩, Header.entityTag (EntityTag.strong "7"),
      Header.location "loc"],
    some "nested body"⟩

/-- Expected result of `Accepted.respond ⟨some tOk⟩`. -/
def respA : Response :=
  ⟨Status.Accepted, [⟨"X-Test", HVal.text "y"⟩], some "nested body"⟩

/-- Expected result of `NoContent.respond`. -/
def respNC : Response := ⟨Status.NoContent, [], none⟩

/-- Expected result of `Reset.respond`. -/
def respRS : Response := ⟨Status.ResetContent, [], none⟩

/-- Expected result of `Custom.respond ⟨⟨499, "Custom"⟩, tOk⟩`: status
overwritten, nested headers and body kept. -/
def respCU : Response :=
  ⟨⟨499, "Custom"⟩, [⟨"X-Test", HVal.text "y"⟩], some "nested body"⟩

/-- Shape of the plain `Created` result when no nested responder is given. -/
theorem respondDefault_none_eq {R : Type} [Responder R] (loc : String) :
    Created.respondDefault (R := R) ⟨loc, none⟩ =
      Except.ok ⟨Status.Created, [Header.location loc], none⟩ := rfl

/-- Shape of the hash-capable `Created` result when no nested responder is
given: no digest is computed and no `ETag` appears. -/
theorem respondHash_none_eq {R : Type} [Responder R] [ContentHash R] (loc : String) :
    Created.respondHash (R := R) ⟨loc, none⟩ =
      Except.ok ⟨Status.Created, [Header.location loc], none⟩ := rfl

/-- The plain `Created` propagates a nested failure verbatim. -/
theorem respondDefault_some_err {R : Type} [Responder R] (loc : String) (r : R)
    (f : Status) (hr : Responder.respond r = Except.error f) :
    Created.respondDefault ⟨loc, some r⟩ = Except.error f := by
  simp [Created.respondDefault, hr]

/-- The hash-capable `Created` propagates a nested failure verbatim. -/
theorem respondHash_some_err {R : Type} [Responder R] [ContentHash R] (loc : String)
    (r : R) (f : Status) (hr : Responder.respond r = Except.error f) :
    Created.respondHash ⟨loc, some r⟩ = Except.error f := by
  simp [Created.respondHash, hr]

/-- Shape of the plain `Created` result on nested success: status 201, nested
headers merged then the `Location` header added, nested body kept. -/
theorem respondDefault_some_ok {R : Type} [Responder R] (loc : String) (r : R)
    (nresp : Response) (hr : Responder.respond r = Except.ok nresp) :
    Created.respondDefault ⟨loc, some r⟩ =
      Except.ok ⟨Status.Created,
        addHeader (nresp.headers.foldl addHeader []) (Header.location loc),
        nresp.body⟩ := by
  simp [Created.respondDefault, hr, Builder.build, Builder.merge, Builder.status,
    Builder.header, Builder.ok]

/-- Shape of the hash-capable `Created` result on nested success: status 201,
nested headers merged, then the strong decimal `ETag`, then `Location`. -/
theorem respondHash_some_ok {R : Type} [Responder R] [ContentHash R] (loc : String)
    (r : R) (nresp : Response) (hr : Responder.respond r = Except.ok nresp) :
    Created.respondHash ⟨loc, some r⟩ =
      Except.ok ⟨Status.Created,
        addHeader
          (addHeader (nresp.headers.foldl addHeader [])
            (Header.entityTag (EntityTag.strong
              (Nat.repr (ContentHash.hash64 r % 2 ^ 64)))))
          (Header.location loc),
        nresp.body⟩ := by
  simp [Created.respondHash, hr, Builder.build, Builder.merge, Builder.status,
    Builder.header, Builder.ok]

/-- On nested success the hash-capable `Created` result answers an `ETag`
lookup with the strong entity tag of the digest rendered in decimal. -/
theorem respondHash_ok_etag {R : Type} [Responder R] [ContentHash R] (loc : String)
    (r : R) (resp : Response)
    (h : Created.respondHash ⟨loc, some r⟩ = Except.ok resp) :
    findHeader resp.headers "ETag" =
      some (Header.entityTag (EntityTag.strong
        (Nat.repr (ContentHash.hash64 r % 2 ^ 64)))) := by
  cases hr : Responder.respond r with
  | error f =>
    rw [respondHash_some_err loc r f hr] at h
    exact absurd h (by simp)
  | ok nresp =>
    rw [respondHash_some_ok loc r nresp hr] at h
    have h' := Except.ok.inj h
    rw [← h']
    have hne : ¬(Header.location loc).name = "ETag" := by
      show ¬"Location" = "ETag"
      decide
    rw [findHeader_addHeader_ne _ _ _ hne]
    exact findHeader_addHeader_self _ _ _ rfl

/-- C1: for every status wrapper (Created in both implementations, Accepted,
NoContent, Reset, Custom) and every nested responder whose respond succeeds,
the wrapper's respond returns a response whose status equals the wrapper's
designated status (201, 202, 204, 205, or the caller-supplied status for
Custom), regardless of any status the nested response carried. -/
theorem c1_wrapper_status_override :
    (∀ (R : Type) [Responder R] (c : Created R) (resp : Response),
      Created.respondDefault c = Except.ok resp → resp.status = Status.Created) ∧
    (∀ (R : Type) [Responder R] [ContentHash R] (c : Created R) (resp : Response),
      Created.respondHash c = Except.ok resp → resp.status = Status.Created) ∧
    (∀ (R : Type) [Responder R] (a : Accepted R) (resp : Response),
      Accepted.respond a = Except.ok resp → resp.status = Status.Accepted) ∧
    (∀ (nc : NoContent) (resp : Response),
      NoContent.respond nc = Except.ok resp → resp.status = Status.NoContent) ∧
    (∀ (rs : Reset) (resp : Response),
      Reset.respond rs = Except.ok resp → resp.status = Status.ResetContent) ∧
    (∀ (R : Type) [Responder R] (c : Custom R) (resp : Response),
      Custom.respond c = Except.ok resp → resp.status = c.status) := by
  refine ⟨?_, ?_, ?_, ?_, ?_, ?_⟩
  · intro R _ c resp h
    obtain ⟨loc, inner⟩ := c
    cases inner with
    | none =>
      simp [Created.respondDefault, Builder.build, Builder.status, Builder.header,
        Builder.ok] at h
      subst h; rfl
    | some r =>
      cases hr : Responder.respond r with
      | error e => simp [Created.respondDefault, hr] at h
      | ok nresp =>
        simp [Created.respondDefault, hr, Builder.build, Builder.merge,
          Builder.status, Builder.header, Builder.ok] at h
        subst h; rfl
  · intro R _ _ c resp h
    obtain ⟨loc, inner⟩ := c
    cases inner with
    | none =>
      simp [Created.respondHash, Builder.build, Builder.status, Builder.header,
        Builder.ok] at h
      subst h; rfl
    | some r =>
      cases hr : Responder.respond r with
      | error e => simp [Created.respondHash, hr] at h
      | ok nresp =>
        simp [Created.respondHash, hr, Builder.build, Builder.merge,
          Builder.status, Builder.header, Builder.ok] at h
        subst h; rfl
  · intro R _ a resp h
    obtain ⟨inner⟩ := a
    cases inner with
    | none =>
      simp [Accepted.respond, Builder.build, Builder.status, Builder.ok] at h
      subst h; rfl
    | some r =>
      cases hr : Responder.respond r with
      | error e => simp [Accepted.respond, hr] at h
      | ok nresp =>
        simp [Accepted.respond, hr, Builder.build, Builder.merge,
          Builder.status, Builder.ok] at h
        subst h; rfl
  · intro nc resp h
    simp [NoContent.respond, Builder.build, Builder.status, Builder.ok] at h
    subst h; rfl
  · intro rs resp h
    simp [Reset.respond, Builder.build, Builder.status, Builder.ok] at h
    subst h; rfl
  · intro R _ c resp h
    cases hr : Responder.respond c.inner with
    | error e => simp [Custom.respond, hr] at h
    | ok nresp =>
      simp [Custom.respond, hr, Builder.buildFrom, Builder.status, Builder.ok] at h
      subst h; rfl

/-- Witness for C1: each wrapper evaluated at a concrete nested responder
whose nested response carries status 418; every result carries the wrapper's
status. -/
theorem c1_wrapper_status_override_witness :
    (Created.respondDefault (R := TR) ⟨"loc", some tOk⟩ = Except.ok respCD ∧
      respCD.status = Status.Created) ∧
    (Created.respondHash (R := HTR) ⟨"loc", some hOk⟩ = Except.ok respCH ∧
      respCH.status = Status.Created) ∧
    (Accepted.respond (R := TR) ⟨some tOk⟩ = Except.ok respA ∧
      respA.status = Status.Accepted) ∧
    (NoContent.respond ⟨⟩ = Except.ok respNC ∧ respNC.status = Status.NoContent) ∧
    (Reset.respond ⟨⟩ = Except.ok respRS ∧ respRS.status = Status.ResetContent) ∧
    (Custom.respond (R := TR) ⟨⟨499, "Custom"⟩, tOk⟩ = Except.ok respCU ∧
      respCU.status = (⟨499, "Custom"⟩ : Status)) :=
  ⟨⟨by decide, c1_wrapper_status_override.1 TR ⟨"loc", some tOk⟩ respCD (by decide)⟩,
    ⟨by decide, c1_wrapper_status_override.2.1 HTR ⟨"loc", some hOk⟩ respCH (by decide)⟩,
    ⟨by decide, c1_wrapper_status_override.2.2.1 TR ⟨some tOk⟩ respA (by decide)⟩,
    ⟨by decide, c1_wrapper_status_override.2.2.2.1 ⟨⟩ respNC (by decide)⟩,
    ⟨by decide, c1_wrapper_status_override.2.2.2.2.1 ⟨⟩ respRS (by decide)⟩,
    ⟨by decide, c1_wrapper_status_override.2.2.2.2.2 TR ⟨⟨499, "Custom"⟩, tOk⟩
      respCU (by decide)⟩⟩

/-- C2: for every wrapper holding a nested responder (Created with Some in
both implementations, Accepted with Some, Custom) whose nested respond fails
with status F, the wrapper's respond returns exactly that failure; the
wrapper's status and headers are never applied, and in particular no 202 is
observable from Accepted. -/
theorem c2_failure_propagated_verbatim :
    (∀ (R : Type) [Responder R] (loc : String) (r : R) (f : Status),
      Responder.respond r = Except.error f →
      Created.respondDefault ⟨loc, some r⟩ = Except.error f) ∧
    (∀ (R : Type) [Responder R] [ContentHash R] (loc : String) (r : R) (f : Status),
      Responder.respond r = Except.error f →
      Created.respondHash ⟨loc, some r⟩ = Except.error f) ∧
    (∀ (R : Type) [Responder R] (r : R) (f : Status),
      Responder.respond r = Except.error f →
      Accepted.respond ⟨some r⟩ = Except.error f) ∧
    (∀ (R : Type) [Responder R] (s : Status) (r : R) (f : Status),
      Responder.respond r = Except.error f →
      Custom.respond ⟨s, r⟩ = Except.error f) := by
  refine ⟨?_, ?_, ?_, ?_⟩
  · intro R _ loc r f hr
    exact respondDefault_some_err loc r f hr
  · intro R _ _ loc r f hr
    exact respondHash_some_err loc r f hr
  · intro R _ r f hr
    simp [Accepted.respond, hr]
  · intro R _ s r f hr
    simp [Custom.respond, hr]

/-- Witness for C2: a nested responder failing with 503 makes every wrapper
return exactly that 503 failure. -/
theorem c2_failure_propagated_verbatim_witness :
    (Responder.respond tFail = Except.error ⟨503, "Service Unavailable"⟩ ∧
      Created.respondDefault (R := TR) ⟨"loc", some tFail⟩ =
        Except.error ⟨503, "Service Unavailable"⟩) ∧
    (Responder.respond hFail = Except.error ⟨503, "Service Unavailable"⟩ ∧
      Created.respondHash (R := HTR) ⟨"loc", some hFail⟩ =
        Except.error ⟨503, "Service Unavailable"⟩) ∧
    (Accepted.respond (R := TR) ⟨some tFail⟩ =
      Except.error ⟨503, "Service Unavailable"⟩) ∧
    (Custom.respond (R := TR) ⟨⟨499, "Custom"⟩, tFail⟩ =
      Except.error ⟨503, "Service Unavailable"⟩) :=
  ⟨⟨by decide, c2_failure_propagated_verbatim.1 TR "loc" tFail _ (by decide)⟩,
    ⟨by decide, c2_failure_propagated_verbatim.2.1 HTR "loc" hFail _ (by decide)⟩,
    c2_failure_propagated_verbatim.2.2.1 TR tFail _ (by decide),
    c2_failure_propagated_verbatim.2.2.2 TR ⟨499, "Custom"⟩ tFail _ (by decide)⟩

/-- C3: `Custom(S, inner)` yields status S on nested success regardless of
the nested status, with the builder seeded from the nested response (its
headers and body are kept as-is), and fails with the nested failure F on
nested failure (S is never applied). -/
theorem c3_custom_status_and_seed :
    ∀ (R : Type) [Responder R] (s : Status) (r : R),
      (∀ resp : Response, Responder.respond r = Except.ok resp →
        Custom.respond ⟨s, r⟩ = Except.ok ⟨s, resp.headers, resp.body⟩) ∧
      (∀ f : Status, Responder.respond r = Except.error f →
        Custom.respond ⟨s, r⟩ = Except.error f) := by
  intro R _ s r
  constructor
  · intro resp hr
    simp [Custom.respond, hr, Builder.buildFrom, Builder.status, Builder.ok]
  · intro f hr
    simp [Custom.respond, hr]

/-- Witness for C3: a nested response with status 418 comes back with the
caller-supplied status 499 and its headers and body intact; a nested 503
failure is returned as-is. -/
theorem c3_custom_status_and_seed_witness :
    (Responder.respond tOk = Except.ok sampleResp ∧
      Custom.respond (R := TR) ⟨⟨499, "Custom"⟩, tOk⟩ =
        Except.ok ⟨⟨499, "Custom"⟩, sampleResp.headers, sampleResp.body⟩) ∧
    (Responder.respond tFail = Except.error ⟨503, "Service Unavailable"⟩ ∧
      Custom.respond (R := TR) ⟨⟨499, "Custom"⟩, tFail⟩ =
        Except.error ⟨503, "Service Unavailable"⟩) :=
  ⟨⟨by decide,
      (c3_custom_status_and_seed TR ⟨499, "Custom"⟩ tOk).1 sampleResp (by decide)⟩,
    ⟨by decide,
      (c3_custom_status_and_seed TR ⟨499, "Custom"⟩ tFail).2 _ (by decide)⟩⟩

/-- C4: for a digest-capable nested responder under `Created` with a `Some`
nested value, the digest is the hash of the nested value itself (computed
from the value before it is consumed) and the emitted `ETag` is the strong
entity tag of that digest rendered as text; with `None` no `ETag` is
emitted. -/
theorem c4_etag_from_digest :
    ∀ (R : Type) [Responder R] [ContentHash R] (loc : String),
      (∀ (r : R) (resp : Response),
        Created.respondHash ⟨loc, some r⟩ = Except.ok resp →
        findHeader resp.headers "ETag" =
          some (Header.entityTag (EntityTag.strong
            (Nat.repr (ContentHash.hash64 r % 2 ^ 64))))) ∧
      (∀ resp : Response,
        Created.respondHash (R := R) ⟨loc, none⟩ = Except.ok resp →
        findHeader resp.headers "ETag" = none) := by
  intro R _ _ loc
  constructor
  · intro r resp h
    exact respondHash_ok_etag loc r resp h
  · intro resp h
    rw [respondHash_none_eq] at h
    rw [← Except.ok.inj h]
    rfl

/-- Witness for C4: with digest input 7 the result's `ETag` lookup answers
the strong tag of the rendered digest; with no nested value there is none. -/
theorem c4_etag_from_digest_witness :
    (Created.respondHash (R := HTR) ⟨"loc", some hOk⟩ = Except.ok respCH ∧
      findHeader respCH.headers "ETag" =
        some (Header.entityTag (EntityTag.strong
          (Nat.repr (ContentHash.hash64 hOk % 2 ^ 64))))) ∧
    (Created.respondHash (R := HTR) ⟨"loc", none⟩ =
        Except.ok ⟨Status.Created, [Header.location "loc"], none⟩ ∧
      findHeader (Response.mk Status.Created [Header.location "loc"] none).headers
        "ETag" = none) :=
  ⟨⟨by decide, (c4_etag_from_digest HTR "loc").1 hOk respCH (by decide)⟩,
    ⟨by decide, (c4_etag_from_digest HTR "loc").2 _ (by decide)⟩⟩

/-- A nested responder whose own response already carries an `ETag` header. -/
def tEtag : TR :=
  TR.succeed ⟨⟨418, "I am a teapot"⟩,
    [Header.entityTag (EntityTag.strong "alien")], some "nested body"⟩

/-- Result of the plain `Created` around `tEtag`: the nested `ETag` header
survives the merge. -/
def respEt : Response :=
  ⟨Status.Created,
    [Header.entityTag (EntityTag.strong "alien"), Header.location "loc"],
    some "nested body"⟩

/-- Counterexample to C5 as stated: `TR` has only the base `Responder`
capability, so the plain implementation runs, yet the result DOES contain an
`ETag` header — the one the nested response itself carried and the merge
preserved. -/
theorem c5_counterexample_nested_etag_survives :
    Responder.respond (⟨"loc", some tEtag⟩ : Created TR) = Except.ok respEt ∧
    ¬findHeader respEt.headers "ETag" = none :=
  ⟨by decide, by decide⟩

/-- C5 amended: with both capabilities the digest-aware implementation is
selected automatically over the base one; with only the base capability the
plain implementation is selected and the wrapper adds no `ETag` of its own —
the result has no `ETag` when the nested responder is absent or its response
carries none. -/
theorem c5_dispatch_prefers_hash :
    (∀ (R : Type) [Responder R] [ContentHash R] (c : Created R),
      Responder.respond c = Created.respondHash c) ∧
    (∀ (R : Type) [Responder R] (c : Created R),
      Responder.respond c = Created.respondDefault c) ∧
    (∀ (R : Type) [Responder R] (loc : String) (r : R) (nresp resp : Response),
      Responder.respond r = Except.ok nresp →
      findHeader nresp.headers "ETag" = none →
      Created.respondDefault ⟨loc, some r⟩ = Except.ok resp →
      findHeader resp.headers "ETag" = none) ∧
    (∀ (R : Type) [Responder R] (loc : String) (resp : Response),
      Created.respondDefault (R := R) ⟨loc, none⟩ = Except.ok resp →
      findHeader resp.headers "ETag" = none) := by
  refine ⟨fun R _ _ c => rfl, fun R _ c => rfl, ?_, ?_⟩
  · intro R _ loc r nresp resp hr hnone h
    rw [respondDefault_some_ok loc r nresp hr] at h
    rw [← Except.ok.inj h]
    have hne : ¬(Header.location loc).name = "ETag" := by
      show ¬"Location" = "ETag"
      decide
    rw [findHeader_addHeader_ne _ _ _ hne]
    exact findHeader_foldl_none nresp.headers "ETag" [] rfl hnone
  · intro R _ loc resp h
    rw [respondDefault_none_eq] at h
    rw [← Except.ok.inj h]
    rfl

/-- Witness for C5 amended: for `HTR` (both capabilities) dispatch picks the
hash implementation; for `TR` (base only) it picks the plain one, and a
nested response without an `ETag` yields a result without one. -/
theorem c5_dispatch_prefers_hash_witness :
    (Responder.respond (⟨"loc", some hOk⟩ : Created HTR) =
      Created.respondHash ⟨"loc", some hOk⟩) ∧
    (Responder.respond (⟨"loc", some tOk⟩ : Created TR) =
      Created.respondDefault ⟨"loc", some tOk⟩) ∧
    (Responder.respond tOk = Except.ok sampleResp ∧
      findHeader sampleResp.headers "ETag" = none ∧
      Created.respondDefault (R := TR) ⟨"loc", some tOk⟩ = Except.ok respCD ∧
      findHeader respCD.headers "ETag" = none) ∧
    (Created.respondDefault (R := TR) ⟨"loc", none⟩ =
        Except.ok ⟨Status.Created, [Header.location "loc"], none⟩ ∧
      findHeader (Response.mk Status.Created [Header.location "loc"] none).headers
        "ETag" = none) :=
  ⟨c5_dispatch_prefers_hash.1 HTR ⟨"loc", some hOk⟩,
    c5_dispatch_prefers_hash.2.1 TR ⟨"loc", some tOk⟩,
    ⟨by decide, by decide, by decide,
      c5_dispatch_prefers_hash.2.2.1 TR "loc" tOk sampleResp respCD (by decide)
        (by decide) (by decide)⟩,
    ⟨by decide,
      c5_dispatch_prefers_hash.2.2.2 TR "loc" _ (by decide)⟩⟩

/-- C6: two `Created` instances wrapping content-equal digest-capable nested
values (even under different locations) produce identical `ETag` values. -/
theorem c6_etag_deterministic :
    ∀ (R : Type) [Responder R] [ContentHash R] (loc1 loc2 : String) (r1 r2 : R)
      (resp1 resp2 : Response),
      r1 = r2 →
      Created.respondHash ⟨loc1, some r1⟩ = Except.ok resp1 →
      Created.respondHash ⟨loc2, some r2⟩ = Except.ok resp2 →
      findHeader resp1.headers "ETag" = findHeader resp2.headers "ETag" := by
  intro R _ _ loc1 loc2 r1 r2 resp1 resp2 heq h1 h2
  subst heq
  rw [respondHash_ok_etag loc1 r1 resp1 h1, respondHash_ok_etag loc2 r1 resp2 h2]

/-- Result of the hash-capable `Created` around `hOk` at location "a". -/
def respCHa : Response :=
  ⟨Status.Created,
    [⟨"X-Test", HVal.text "y"⟩, Header.entityTag (EntityTag.strong "7"),
      Header.location "a"],
    some "nested body"⟩

/-- Result of the hash-capable `Created` around `hOk` at location "b". -/
def respCHb : Response :=
  ⟨Status.Created,
    [⟨"X-Test", HVal.text "y"⟩, Header.entityTag (EntityTag.strong "7"),
      Header.location "b"],
    some "nested body"⟩

/-- Witness for C6: the same nested value under two different locations
yields the same `ETag` lookup answer. -/
theorem c6_etag_deterministic_witness :
    hOk = hOk ∧
    Created.respondHash (R := HTR) ⟨"a", some hOk⟩ = Except.ok respCHa ∧
    Created.respondHash (R := HTR) ⟨"b", some hOk⟩ = Except.ok respCHb ∧
    findHeader respCHa.headers "ETag" = findHeader respCHb.headers "ETag" :=
  ⟨rfl, by decide, by decide,
    c6_etag_deterministic HTR "a" "b" hOk hOk respCHa respCHb rfl
      (by decide) (by decide)⟩

/-- C7: on nested success, the merge of the nested headers happens before the
wrapper's own header additions, so the wrapper-controlled `Location` (and
`ETag` in the digest-capable case) answer lookups with the wrapper's values
even when the nested response set headers of the same names. -/
theorem c7_wrapper_headers_win :
    (∀ (R : Type) [Responder R] (loc : String) (r : R) (resp : Response),
      Created.respondDefault ⟨loc, some r⟩ = Except.ok resp →
      findHeader resp.headers "Location" = some (Header.location loc)) ∧
    (∀ (R : Type) [Responder R] [ContentHash R] (loc : String) (r : R)
      (resp : Response),
      Created.respondHash ⟨loc, some r⟩ = Except.ok resp →
      findHeader resp.headers "Location" = some (Header.location loc) ∧
      findHeader resp.headers "ETag" =
        some (Header.entityTag (EntityTag.strong
          (Nat.repr (ContentHash.hash64 r % 2 ^ 64))))) := by
  constructor
  · intro R _ loc r resp h
    cases hr : Responder.respond r with
    | error f =>
      rw [respondDefault_some_err loc r f hr] at h
      exact absurd h (by simp)
    | ok nresp =>
      rw [respondDefault_some_ok loc r nresp hr] at h
      rw [← Except.ok.inj h]
      exact findHeader_addHeader_self _ _ _ rfl
  · intro R _ _ loc r resp h
    refine ⟨?_, respondHash_ok_etag loc r resp h⟩
    cases hr : Responder.respond r with
    | error f =>
      rw [respondHash_some_err loc r f hr] at h
      exact absurd h (by simp)
    | ok nresp =>
      rw [respondHash_some_ok loc r nresp hr] at h
      rw [← Except.ok.inj h]
      exact findHeader_addHeader_self _ _ _ rfl

/-- Nested headers that collide with the wrapper-controlled ones. -/
def conflictHeaders : List Header :=
  [Header.location "evil", Header.entityTag (EntityTag.strong "evil")]

/-- A base-capability nested responder that sets conflicting `Location` and
`ETag` headers. -/
def tConflict : TR :=
  TR.succeed ⟨⟨418, "I am a teapot"⟩, conflictHeaders, some "b"⟩

/-- A hash-capable nested responder that sets conflicting `Location` and
`ETag` headers. -/
def hConflict : HTR :=
  ⟨7, Except.ok ⟨⟨418, "I am a teapot"⟩, conflictHeaders, some "b"⟩⟩

/-- Plain `Created` around `tConflict`: wrapper's `Location` replaced the
nested one in place; the nested `ETag` stays. -/
def respConfD : Response :=
  ⟨Status.Created,
    [Header.location "loc", Header.entityTag (EntityTag.strong "evil")],
    some "b"⟩

/-- Hash-capable `Created` around `hConflict`: both wrapper headers replaced
the nested ones in place. -/
def respConfH : Response :=
  ⟨Status.Created,
    [Header.location "loc", Header.entityTag (EntityTag.strong "7")],
    some "b"⟩

/-- Witness for C7: with a nested response that sets both `Location` and
`ETag` to other values, the wrapper's values win the lookups. -/
theorem c7_wrapper_headers_win_witness :
    (Created.respondDefault (R := TR) ⟨"loc", some tConflict⟩ =
        Except.ok respConfD ∧
      findHeader respConfD.headers "Location" = some (Header.location "loc")) ∧
    (Created.respondHash (R := HTR) ⟨"loc", some hConflict⟩ =
        Except.ok respConfH ∧
      findHeader respConfH.headers "Location" = some (Header.location "loc") ∧
      findHeader respConfH.headers "ETag" =
        some (Header.entityTag (EntityTag.strong
          (Nat.repr (ContentHash.hash64 hConflict % 2 ^ 64))))) :=
  ⟨⟨by decide,
      c7_wrapper_headers_win.1 TR "loc" tConflict respConfD (by decide)⟩,
    ⟨by decide,
      c7_wrapper_headers_win.2 HTR "loc" hConflict respConfH (by decide)⟩⟩

/-- C8: `NoContent.respond` and `Reset.respond` always succeed with an empty
body, no headers, and the fixed statuses 204 and 205. -/
theorem c8_nocontent_reset_fixed :
    (∀ nc : NoContent, NoContent.respond nc =
      Except.ok ⟨Status.NoContent, [], none⟩) ∧
    (∀ rs : Reset, Reset.respond rs =
      Except.ok ⟨Status.ResetContent, [], none⟩) :=
  ⟨fun _ => rfl, fun _ => rfl⟩

/-- Counterexample to C9 as stated: the plain `Created` around a nested
responder whose response carries its own `ETag` header produces a result
that DOES contain an `ETag` header, because the merge keeps nested headers. -/
theorem c9_counterexample_nested_etag_in_result :
    Created.respondDefault (R := TR) ⟨"loc", some tEtag⟩ = Except.ok respEt ∧
    ¬findHeader respEt.headers "ETag" = none :=
  ⟨by decide, by decide⟩

/-- C9 amended: for the plain `Created` wrapper, with no nested responder the
result is exactly status 201, the `Location` header with the given text, no
`ETag`, and an empty body; with a nested responder whose respond succeeds,
the result has status 201, the nested headers merged and then the `Location`
header applied (winning the lookup), the nested body, and no `ETag` of the
wrapper's own — the result has no `ETag` whenever the nested response
carried none. -/
theorem c9_created_plain_behavior :
    ∀ (R : Type) [Responder R] (loc : String),
      (Created.respondDefault (R := R) ⟨loc, none⟩ =
        Except.ok ⟨Status.Created, [Header.location loc], none⟩) ∧
      (findHeader [Header.location loc] "ETag" = none) ∧
      (∀ (r : R) (nresp : Response), Responder.respond r = Except.ok nresp →
        Created.respondDefault ⟨loc, some r⟩ =
          Except.ok ⟨Status.Created,
            addHeader (nresp.headers.foldl addHeader []) (Header.location loc),
            nresp.body⟩ ∧
        findHeader (addHeader (nresp.headers.foldl addHeader [])
          (Header.location loc)) "Location" = some (Header.location loc) ∧
        (findHeader nresp.headers "ETag" = none →
          findHeader (addHeader (nresp.headers.foldl addHeader [])
            (Header.location loc)) "ETag" = none)) := by
  intro R _ loc
  refine ⟨respondDefault_none_eq loc, rfl, ?_⟩
  intro r nresp hr
  refine ⟨respondDefault_some_ok loc r nresp hr,
    findHeader_addHeader_self _ _ _ rfl, ?_⟩
  intro hnone
  have hne : ¬(Header.location loc).name = "ETag" := by
    show ¬"Location" = "ETag"
    decide
  rw [findHeader_addHeader_ne _ _ _ hne]
  exact findHeader_foldl_none nresp.headers "ETag" [] rfl hnone

/-- Witness for C9 amended: concrete plain `Created` runs with and without a
nested responder whose response has no `ETag`. -/
theorem c9_created_plain_behavior_witness :
    (Created.respondDefault (R := TR) ⟨"loc", none⟩ =
      Except.ok ⟨Status.Created, [Header.location "loc"], none⟩) ∧
    (findHeader [Header.location "loc"] "ETag" = none) ∧
    (Responder.respond tOk = Except.ok sampleResp ∧
      Created.respondDefault (R := TR) ⟨"loc", some tOk⟩ =
        Except.ok ⟨Status.Created,
          addHeader (sampleResp.headers.foldl addHeader []) (Header.location "loc"),
          sampleResp.body⟩ ∧
      findHeader (addHeader (sampleResp.headers.foldl addHeader [])
        (Header.location "loc")) "Location" = some (Header.location "loc") ∧
      findHeader sampleResp.headers "ETag" = none ∧
      findHeader (addHeader (sampleResp.headers.foldl addHeader [])
        (Header.location "loc")) "ETag" = none) := by
  have h := c9_created_plain_behavior TR "loc"
  have hr : Responder.respond tOk = Except.ok sampleResp := by decide
  have h3 := h.2.2 tOk sampleResp hr
  exact ⟨h.1, h.2.1, hr, h3.1, h3.2.1, by decide, h3.2.2 (by decide)⟩

/-- C10: whenever the digest-capable `Created` emits an `ETag`, its value is
the strong (non-weak) entity tag whose text is precisely the base-10 decimal
rendering (`Nat.repr`) of the 64-bit digest of the nested value. -/
theorem c10_etag_decimal_u64 :
    ∀ (R : Type) [Responder R] [ContentHash R] (loc : String) (r : R)
      (resp : Response),
      Created.respondHash ⟨loc, some r⟩ = Except.ok resp →
      findHeader resp.headers "ETag" =
        some ⟨"ETag", HVal.etag ⟨false, Nat.repr (ContentHash.hash64 r % 2 ^ 64)⟩⟩ := by
  intro R _ _ loc r resp h
  exact respondHash_ok_etag loc r resp h

/-- Witness for C10: with digest input 7 the emitted `ETag` is the strong tag
with text "7", the decimal rendering of the digest. -/
theorem c10_etag_decimal_u64_witness :
    Created.respondHash (R := HTR) ⟨"loc", some hOk⟩ = Except.ok respCH ∧
    findHeader respCH.headers "ETag" =
      some ⟨"ETag", HVal.etag ⟨false, Nat.repr (ContentHash.hash64 hOk % 2 ^ 64)⟩⟩ :=
  ⟨by decide, c10_etag_decimal_u64 HTR "loc" hOk respCH (by decide)⟩

end Rocket
